import Mathlib

/-
Shallow embedding of `src/api/index.py` (khovo/snow): a Telegram menu bot
served as a Flask webhook.  Pure Python string dispatch becomes Lean
functions; the outbound `bot.send_message` call is modelled by a boolean
`send_ok` oracle (true = the platform call succeeds, false = it raises),
and each handler either swallows that exception (it has a try/except) or
lets it escape to the webhook route.
-/

namespace Snow

/-! ### The six fixed menu labels (source: `main_menu_keyboard`) -/

def sos_label : String := "🆘 እርዳኝ (SOS)"

def tips_label : String := "🧠 ምክር/ዘዴዎች"

def stories_label : String := "💪 የለውጥ ታሪኮች"

def resources_label : String := "📚 መርጃዎች"

def ask_label : String := "❓ ጥያቄ ለመጠየቅ"

def about_label : String := "ℹ️ ስለ ቦቱ"

def menu_labels : List String :=
  [sos_label, tips_label, stories_label, resources_label, ask_label, about_label]

/-! ### Reply keyboard (source: `types.ReplyKeyboardMarkup(row_width=2, resize_keyboard=True)`
and `markup.add(...)`, which lays the six buttons out `row_width` per row) -/

structure ReplyKeyboardMarkup where
  row_width : Nat
  resize_keyboard : Bool
  keyboard : List (List String)
deriving DecidableEq, Repr

/-- `markup.add` with `row_width=2` chunks the button list into rows of two. -/
def rows_of_two : List String → List (List String)
  | [] => []
  | [b] => [[b]]
  | a :: b :: rest => [a, b] :: rows_of_two rest

def main_menu_keyboard : ReplyKeyboardMarkup :=
  ⟨2, true, rows_of_two menu_labels⟩

/-! ### Inbound update (the fields of `telebot.types.Update` the code reads) -/

structure User where
  first_name : String
deriving DecidableEq, Repr

structure Chat where
  id : Int
deriving DecidableEq, Repr

structure Message where
  chat : Chat
  from_user : User
  text : Option String
deriving DecidableEq, Repr

structure Update where
  message : Option Message
deriving DecidableEq, Repr

/-! ### Command extraction (telebot `util.extract_command`:
`text.split()[0].split(chr(64))[0][1:] if text.startswith(chr(47)) else None`) -/

/-- The characters Python treats as whitespace (`str.isspace`, the class the
argument-less `str.split()` splits on): the ASCII controls 09-0D and 1C-1F,
space, NEL (85), NBSP (A0), OGHAM SPACE MARK (1680), the Unicode space
separators 2000-200A, LINE SEPARATOR (2028), PARAGRAPH SEPARATOR (2029),
NARROW NO-BREAK SPACE (202F), MEDIUM MATHEMATICAL SPACE (205F) and
IDEOGRAPHIC SPACE (3000). -/
def py_isspace (c : Char) : Bool :=
  let n := c.toNat
  (0x9 ≤ n && n ≤ 0xd) || (0x1c ≤ n && n ≤ 0x20) ||
  n == 0x85 || n == 0xa0 || n == 0x1680 ||
  (0x2000 ≤ n && n ≤ 0x200a) || n == 0x2028 || n == 0x2029 ||
  n == 0x202f || n == 0x205f || n == 0x3000

/-- Python `text.split()[0]`: the first maximal run of characters that are
not Python whitespace. -/
def first_word (cs : List Char) : List Char :=
  (cs.dropWhile py_isspace).takeWhile (fun c => !py_isspace c)

def extract_command (text : String) : Option String :=
  match text.data with
  | '/' :: _ =>
      some (String.mk (((first_word text.data).takeWhile (fun c => c != '@')).drop 1))
  | _ => none

/-! ### Handlers, in registration order (source lines 41-92).
`send_welcome` is registered with `commands=[...]` containing only `start`;
the six label handlers each test `message.text == <label>` byte-for-byte.
All seven default to `content_types` of text only, so they never fire on a
message without text. -/

inductive HandlerId
  | start | sos | tips | stories | resources | ask | about
deriving DecidableEq, Repr

def handler_label : HandlerId → Option String
  | .start => none
  | .sos => some sos_label
  | .tips => some tips_label
  | .stories => some stories_label
  | .resources => some resources_label
  | .ask => some ask_label
  | .about => some about_label

def matches_handler (h : HandlerId) (m : Message) : Bool :=
  match m.text with
  | none => false
  | some t =>
      match handler_label h with
      | none => extract_command t == some "start"
      | some l => t == l

def handler_order : List HandlerId :=
  [.start, .sos, .tips, .stories, .resources, .ask, .about]

/-- telebot `_notify_command_handlers` runs the FIRST matching handler and breaks. -/
def first_match (m : Message) : Option HandlerId :=
  handler_order.find? (fun h => matches_handler h m)

/-! ### Reply texts (verbatim from the source) -/

/-- ASCII apostrophe, as it appears inside `stories_text`. -/
def apos : String := String.singleton (Char.ofNat 39)

def welcome_text (first_name : String) : String :=
  "ሰላም " ++ first_name ++ "! 👋\n\n" ++
  "ወደ ነጻነት ጉዞ እንኳን በደህና መጡ። " ++
  "ይህ ቦት ከፖርኖግራፊ ሱስ ለመውጣት በሚያደርጉት ጉዞ አጋዥ ነው።\n\n" ++
  "ከታች ካሉት አማራጮች ይምረጡ 👇"

def sos_text : String :=
  "🚨 **ረጋ በል!** ስሜቱ ጊዜያዊ ነው።\n\n" ++
  "1. ስልክህን አሁን አስቀምጥና ከክፍሉ ውጣ።\n" ++
  "2. ቀዝቃዛ ውሃ ፊትህን ታጠብ።\n" ++
  "3. ለጓደኛህ ወይም ለቤተሰብ ደውል አውራ።\n" ++
  "4. 10 ጊዜ በጥልቀት ተንፍስ።"

def tips_text : String :=
  "✅ **ሱስን ለማሸነፍ:**\n1. ቀስቃሽ ነገሮችን አስወግድ።\n2. ጊዜህን በስራ ሙላ።"

def stories_text : String :=
  "አንድ ወጣት፡ " ++ apos ++ "ስልኬን ማታ ከእኔ ማራቅ ስጀምር ለውጥ አየሁ።" ++ apos

def resources_text : String := "መጽሐፍት በቅርቡ ይጫናሉ።"

def ask_text : String := "ጥያቄ ካለዎት አድሚንን ያናግሩ።"

def about_text : String := "ይህ ቦት በበጎ ፈቃደኞች የተሰራ ነው።"

/-! ### The one send each handler performs -/

structure SendAction where
  chat_id : Int
  text : String
  parse_mode : Option String
  reply_markup : Option ReplyKeyboardMarkup
deriving DecidableEq, Repr

def handler_send (h : HandlerId) (m : Message) : SendAction :=
  match h with
  | .start => ⟨m.chat.id, welcome_text m.from_user.first_name, none, some main_menu_keyboard⟩
  | .sos => ⟨m.chat.id, sos_text, some "Markdown", none⟩
  | .tips => ⟨m.chat.id, tips_text, none, none⟩
  | .stories => ⟨m.chat.id, stories_text, none, none⟩
  | .resources => ⟨m.chat.id, resources_text, none, none⟩
  | .ask => ⟨m.chat.id, ask_text, none, none⟩
  | .about => ⟨m.chat.id, about_text, none, none⟩

/-- Only `send_welcome` and `sos_response` wrap their send in try/except;
the other five label handlers let a send exception escape. -/
def handler_catches : HandlerId → Bool
  | .start => true
  | .sos => true
  | _ => false

/-- `bot.process_new_updates([update])` with `threaded=False` and no
exception handler: run the first matching handler; return the attempted
sends and whether an exception escaped the handler. -/
def process_new_updates (send_ok : Bool) (u : Update) : List SendAction × Bool :=
  match u.message with
  | none => ([], false)
  | some m =>
      match first_match m with
      | none => ([], false)
      | some h => ([handler_send h m], !send_ok && !handler_catches h)

/-! ### The Flask routes -/

/-- Python truthiness of the TOKEN environment value (`if not TOKEN`):
unset or empty both leave `bot = None`. -/
def token_truthy : Option String → Bool
  | none => false
  | some t => !(t == "")

/-- The webhook POST body, after `Update.de_json`: either it raises
(malformed JSON or not Update-shaped) or yields an Update. -/
inductive Body
  | malformed
  | valid (u : Update)
deriving DecidableEq, Repr

structure HttpResponse where
  body : String
  status : Nat
deriving DecidableEq, Repr

/-- The POST route handler `getMessage` (source lines 96-107): returns the
HTTP response together with the sends attempted during dispatch. -/
def getMessage (token : Option String) (send_ok : Bool) (b : Body) :
    HttpResponse × List SendAction :=
  if token_truthy token then
    match b with
    | .malformed => (⟨"Error", 500⟩, [])
    | .valid u =>
        let r := process_new_updates send_ok u
        if r.2 then (⟨"Error", 500⟩, r.1) else (⟨"!", 200⟩, r.1)
  else (⟨"Bot token not configured", 500⟩, [])

/-- The GET root route `webhook` (source lines 109-120); `info` is the
outcome of `bot.get_webhook_info()` (ok = its url, error = the exception text). -/
def webhook (token : Option String) (info : Except String String) : HttpResponse :=
  if token_truthy token then
    match info with
    | .ok url => ⟨"Bot is running! Webhook URL: " ++ url, 200⟩
    | .error e => ⟨"Bot is running, but failed to get info: " ++ e, 200⟩
  else ⟨"Error: TELEGRAM_BOT_TOKEN not set in Vercel Environment Variables.", 500⟩

inductive Method
  | GET | POST
deriving DecidableEq, Repr

/-- The POST route's URL rule: `'/' + (TOKEN if TOKEN else 'webhook')`. -/
def post_route_path (token : Option String) : String :=
  "/" ++ (match token with
          | some t => if t == "" then "webhook" else t
          | none => "webhook")

structure Route where
  path : String
  methods : List Method
deriving DecidableEq, Repr

/-- The two routes the Flask app registers: the POST webhook route and the
GET root route (Flask default methods = GET). -/
def app_routes (token : Option String) : List Route :=
  [⟨post_route_path token, [Method.POST]⟩, ⟨"/", [Method.GET]⟩]

/-- A sequence of webhook POSTs handled one after another; no state is
threaded between requests, mirroring the source, which reads only the
process-wide constants during a request. -/
def process_requests (token : Option String) (send_ok : Bool) :
    List Body → List (HttpResponse × List SendAction)
  | [] => []
  | b :: rest => getMessage token send_ok b :: process_requests token send_ok rest

/-! ### Concrete updates used as witnesses and counterexamples -/

def msg_start : Message := ⟨⟨1⟩, ⟨"Abel"⟩, some "/start"⟩

/-- A `/start` command whose argument is separated by a NO-BREAK SPACE:
Python's `split()` treats U+00A0 as whitespace, so this carries `/start`. -/
def msg_start_nbsp : Message := ⟨⟨1⟩, ⟨"Abel"⟩, some "/start\u00A0x"⟩

def msg_sos : Message := ⟨⟨1⟩, ⟨"Abel"⟩, some sos_label⟩

def msg_tips : Message := ⟨⟨1⟩, ⟨"Abel"⟩, some tips_label⟩

def msg_stories : Message := ⟨⟨1⟩, ⟨"Abel"⟩, some stories_label⟩

/-! ## Theorems for the spec claims -/

/-- Claim C1: an Update carrying the `/start` command produces exactly one send
action, addressed to the originating chat, whose text contains the sender's
first name, carrying the full menu keyboard: all six labels, two per row,
resize-to-fit. -/
theorem C1_start_welcome (u : Update) (m : Message) (t : String) (send_ok : Bool)
    (hm : u.message = some m) (ht : m.text = some t)
    (hc : extract_command t = some "start") :
    (process_new_updates send_ok u).1 =
      [⟨m.chat.id, welcome_text m.from_user.first_name, none, some main_menu_keyboard⟩] ∧
    (∃ pre post, welcome_text m.from_user.first_name =
        pre ++ m.from_user.first_name ++ post) ∧
    main_menu_keyboard.keyboard =
      [[sos_label, tips_label], [stories_label, resources_label], [ask_label, about_label]] ∧
    main_menu_keyboard.row_width = 2 ∧
    main_menu_keyboard.resize_keyboard = true := by
  have hfm : first_match m = some .start := by
    simp [first_match, handler_order, List.find?, matches_handler, handler_label, ht, hc]
  refine ⟨?_, ?_, rfl, rfl, rfl⟩
  · simp [process_new_updates, hm, hfm, handler_send]
  · refine ⟨"ሰላም ", "! 👋\n\n" ++
      "ወደ ነጻነት ጉዞ እንኳን በደህና መጡ። " ++
      "ይህ ቦት ከፖርኖግራፊ ሱስ ለመውጣት በሚያደርጉት ጉዞ አጋዥ ነው።\n\n" ++
      "ከታች ካሉት አማራጮች ይምረጡ 👇", ?_⟩
    apply String.ext
    simp [welcome_text, String.data_append]

/-- Witness for C1 at the `/start` update whose argument is separated by a
NO-BREAK SPACE: Python `split()` whitespace, so the command is extracted as
`start` and the welcome send fires. -/
theorem C1_start_welcome_witness :
    extract_command "/start\u00A0x" = some "start" ∧
    ((process_new_updates true ⟨some msg_start_nbsp⟩).1 =
      [⟨msg_start_nbsp.chat.id, welcome_text msg_start_nbsp.from_user.first_name, none,
        some main_menu_keyboard⟩] ∧
    (∃ pre post, welcome_text msg_start_nbsp.from_user.first_name =
        pre ++ msg_start_nbsp.from_user.first_name ++ post) ∧
    main_menu_keyboard.keyboard =
      [[sos_label, tips_label], [stories_label, resources_label], [ask_label, about_label]] ∧
    main_menu_keyboard.row_width = 2 ∧
    main_menu_keyboard.resize_keyboard = true) :=
  ⟨by decide, C1_start_welcome ⟨some msg_start_nbsp⟩ msg_start_nbsp "/start\u00A0x" true
    rfl rfl (by decide)⟩

/-- Claim C2: an Update whose text equals one of the six menu labels produces
exactly one send action, to the originating chat, carrying that label's fixed
reply text; no send carries any other label's reply text. -/
theorem C2_label_reply (u : Update) (m : Message) (t : String) (send_ok : Bool)
    (hm : u.message = some m) (ht : m.text = some t) (hl : t ∈ menu_labels) :
    ∃ h : HandlerId, handler_label h = some t ∧
      (process_new_updates send_ok u).1 = [handler_send h m] ∧
      (handler_send h m).chat_id = m.chat.id ∧
      ∀ h2 : HandlerId, handler_label h2 ≠ none → handler_label h2 ≠ some t →
        ∀ a ∈ (process_new_updates send_ok u).1, a.text ≠ (handler_send h2 m).text := by
  obtain ⟨c, f, tx⟩ := m
  cases ht
  have hproc : ∀ h : HandlerId, first_match ⟨c, f, some t⟩ = some h →
      (process_new_updates send_ok u).1 = [handler_send h ⟨c, f, some t⟩] := by
    intro h hfm
    simp [process_new_updates, hm, hfm]
  fin_cases hl
  case _ =>
    refine ⟨.sos, rfl, hproc .sos rfl, rfl, ?_⟩
    rw [hproc .sos rfl]
    intro h2 _ hne a ha
    rw [List.mem_singleton] at ha
    subst ha
    cases h2 <;> simp_all [handler_label, handler_send] <;> decide
  case _ =>
    refine ⟨.tips, rfl, hproc .tips rfl, rfl, ?_⟩
    rw [hproc .tips rfl]
    intro h2 _ hne a ha
    rw [List.mem_singleton] at ha
    subst ha
    cases h2 <;> simp_all [handler_label, handler_send] <;> decide
  case _ =>
    refine ⟨.stories, rfl, hproc .stories rfl, rfl, ?_⟩
    rw [hproc .stories rfl]
    intro h2 _ hne a ha
    rw [List.mem_singleton] at ha
    subst ha
    cases h2 <;> simp_all [handler_label, handler_send] <;> decide
  case _ =>
    refine ⟨.resources, rfl, hproc .resources rfl, rfl, ?_⟩
    rw [hproc .resources rfl]
    intro h2 _ hne a ha
    rw [List.mem_singleton] at ha
    subst ha
    cases h2 <;> simp_all [handler_label, handler_send] <;> decide
  case _ =>
    refine ⟨.ask, rfl, hproc .ask rfl, rfl, ?_⟩
    rw [hproc .ask rfl]
    intro h2 _ hne a ha
    rw [List.mem_singleton] at ha
    subst ha
    cases h2 <;> simp_all [handler_label, handler_send] <;> decide
  case _ =>
    refine ⟨.about, rfl, hproc .about rfl, rfl, ?_⟩
    rw [hproc .about rfl]
    intro h2 _ hne a ha
    rw [List.mem_singleton] at ha
    subst ha
    cases h2 <;> simp_all [handler_label, handler_send] <;> decide

/-- Witness for C2 at the concrete SOS update. -/
theorem C2_label_reply_witness :
    sos_label ∈ menu_labels ∧
    (∃ h : HandlerId, handler_label h = some sos_label ∧
      (process_new_updates true ⟨some msg_sos⟩).1 = [handler_send h msg_sos] ∧
      (handler_send h msg_sos).chat_id = msg_sos.chat.id ∧
      ∀ h2 : HandlerId, handler_label h2 ≠ none → handler_label h2 ≠ some sos_label →
        ∀ a ∈ (process_new_updates true ⟨some msg_sos⟩).1,
          a.text ≠ (handler_send h2 msg_sos).text) :=
  ⟨by decide,
   C2_label_reply ⟨some msg_sos⟩ msg_sos sos_label true rfl rfl (by decide)⟩

/-- Claim C3: an Update whose text matches none of the six labels and carries
no recognized command produces zero send actions, and the webhook POST still
answers HTTP 200. -/
theorem C3_no_match (u : Update) (m : Message) (t : String) (send_ok : Bool)
    (tok : String) (hm : u.message = some m) (ht : m.text = some t)
    (hc : extract_command t ≠ some "start") (hl : t ∉ menu_labels)
    (htok : tok ≠ "") :
    (process_new_updates send_ok u).1 = [] ∧
    (getMessage (some tok) send_ok (Body.valid u)).1 = ⟨"!", 200⟩ := by
  have hfm : first_match m = none := by
    obtain ⟨c, f, tx⟩ := m
    cases ht
    simp [menu_labels] at hl
    obtain ⟨h1, h2, h3, h4, h5, h6⟩ := hl
    have e0 : (extract_command t == some "start") = false :=
      beq_eq_false_iff_ne.mpr hc
    have e1 : (t == sos_label) = false := beq_eq_false_iff_ne.mpr h1
    have e2 : (t == tips_label) = false := beq_eq_false_iff_ne.mpr h2
    have e3 : (t == stories_label) = false := beq_eq_false_iff_ne.mpr h3
    have e4 : (t == resources_label) = false := beq_eq_false_iff_ne.mpr h4
    have e5 : (t == ask_label) = false := beq_eq_false_iff_ne.mpr h5
    have e6 : (t == about_label) = false := beq_eq_false_iff_ne.mpr h6
    simp [first_match, handler_order, List.find?, matches_handler, handler_label,
      e0, e1, e2, e3, e4, e5, e6]
  constructor
  · simp [process_new_updates, hm, hfm]
  · simp [getMessage, token_truthy, htok, process_new_updates, hm, hfm]

/-- Witness for C3 at a concrete unrecognized text. -/
theorem C3_no_match_witness :
    extract_command "random unrelated text" ≠ some "start" ∧
    "random unrelated text" ∉ menu_labels ∧
    ((process_new_updates true ⟨some ⟨⟨1⟩, ⟨"Abel"⟩, some "random unrelated text"⟩⟩).1 = [] ∧
     (getMessage (some "TOKEN") true
        (Body.valid ⟨some ⟨⟨1⟩, ⟨"Abel"⟩, some "random unrelated text"⟩⟩)).1 = ⟨"!", 200⟩) :=
  ⟨by decide, by decide,
   C3_no_match ⟨some ⟨⟨1⟩, ⟨"Abel"⟩, some "random unrelated text"⟩⟩
     ⟨⟨1⟩, ⟨"Abel"⟩, some "random unrelated text"⟩ "random unrelated text" true "TOKEN"
     rfl rfl (by decide) (by decide) (by decide)⟩

/-- Claim C4: label matching is byte-exact string equality — a label handler
fires exactly when the message text equals its label, so any one-byte
difference (trailing whitespace, case change, missing emoji) means the
handler is not selected. -/
theorem C4_byte_exact (m : Message) (t : String) (h : HandlerId) (l : String)
    (ht : m.text = some t) (hh : handler_label h = some l) :
    (matches_handler h m = true ↔ t = l) ∧ (t ≠ l → first_match m ≠ some h) := by
  have hmh : matches_handler h m = (t == l) := by
    simp [matches_handler, ht, hh]
  constructor
  · rw [hmh]
    exact beq_iff_eq
  · intro hne hcontra
    rw [first_match] at hcontra
    have hp := List.find?_some hcontra
    simp only [hmh, beq_iff_eq] at hp
    exact hne hp

/-- Witness for C4: a trailing space after the SOS label must not match. -/
theorem C4_byte_exact_witness :
    (matches_handler .sos ⟨⟨1⟩, ⟨"Abel"⟩, some (sos_label ++ " ")⟩ = true ↔
      sos_label ++ " " = sos_label) ∧
    (sos_label ++ " " ≠ sos_label →
      first_match ⟨⟨1⟩, ⟨"Abel"⟩, some (sos_label ++ " ")⟩ ≠ some .sos) :=
  C4_byte_exact ⟨⟨1⟩, ⟨"Abel"⟩, some (sos_label ++ " ")⟩ (sos_label ++ " ")
    .sos sos_label rfl rfl

/-- Claim C5 counterexample: with the tips label and a failing outbound send,
the exception escapes `tips_response` (it has no try/except) and the POST
answers 500, not 200 — so the failure is NOT swallowed for every handler. -/
theorem C5_counterexample :
    (getMessage (some "TOKEN") false (Body.valid ⟨some msg_tips⟩)) =
      (⟨"Error", 500⟩, [handler_send .tips msg_tips]) := by
  decide

/-- Claim C5 amended: on a send failure, the endpoint still answers 200 only
for the two handlers that wrap their send in try/except (`send_welcome` and
`sos_response`); for the other five label handlers the exception escapes and
the endpoint answers 500. In both cases the one send was attempted. -/
theorem C5_amended (u : Update) (m : Message) (h : HandlerId) (tok : String)
    (hm : u.message = some m) (hfm : first_match m = some h) (htok : tok ≠ "") :
    (getMessage (some tok) false (Body.valid u)).2 = [handler_send h m] ∧
    (handler_catches h = true →
      (getMessage (some tok) false (Body.valid u)).1 = ⟨"!", 200⟩) ∧
    (handler_catches h = false →
      (getMessage (some tok) false (Body.valid u)).1 = ⟨"Error", 500⟩) := by
  have hp : process_new_updates false u = ([handler_send h m], !handler_catches h) := by
    simp [process_new_updates, hm, hfm]
  refine ⟨?_, ?_, ?_⟩
  · cases hch : handler_catches h <;>
      simp [getMessage, token_truthy, htok, hp, hch]
  · intro hcat
    simp [getMessage, token_truthy, htok, hp, hcat]
  · intro hcat
    simp [getMessage, token_truthy, htok, hp, hcat]

/-- Witness for the amended C5 at the NO-BREAK-SPACE `/start` update: the
`/start` handler attempts the send, catches the failure, and the POST still
answers 200. -/
theorem C5_amended_witness :
    first_match msg_start_nbsp = some .start ∧
    ((getMessage (some "TOKEN") false (Body.valid ⟨some msg_start_nbsp⟩)).2 =
      [handler_send .start msg_start_nbsp] ∧
    (handler_catches .start = true →
      (getMessage (some "TOKEN") false (Body.valid ⟨some msg_start_nbsp⟩)).1 =
        ⟨"!", 200⟩) ∧
    (handler_catches .start = false →
      (getMessage (some "TOKEN") false (Body.valid ⟨some msg_start_nbsp⟩)).1 =
        ⟨"Error", 500⟩)) :=
  ⟨by decide,
   C5_amended ⟨some msg_start_nbsp⟩ msg_start_nbsp .start "TOKEN" rfl
     (by decide) (by decide)⟩

/-- Dispatch raises out of `process_new_updates` exactly when the send fails
and the matched handler has no try/except. -/
theorem process_snd_eq_true (send_ok : Bool) (u : Update) :
    (process_new_updates send_ok u).2 = true ↔
      send_ok = false ∧ ∃ m h, u.message = some m ∧ first_match m = some h ∧
        handler_catches h = false := by
  cases hu : u.message with
  | none => simp [process_new_updates, hu]
  | some m =>
    cases hfm : first_match m with
    | none => simp [process_new_updates, hu, hfm]
    | some h =>
      simp only [process_new_updates, hu, hfm, Bool.and_eq_true, Bool.not_eq_true',
        Option.some.injEq]
      constructor
      · rintro ⟨hs, hc⟩
        exact ⟨hs, m, h, rfl, hfm, hc⟩
      · rintro ⟨hs, m2, h2, rfl, hh2, hc2⟩
        rw [hfm, Option.some.injEq] at hh2
        subst hh2
        exact ⟨hs, hc2⟩

/-- Claim C6 counterexample: with a configured token and a body that decodes
fine (the stories label), a failing send still yields HTTP 500 — so 500 does
not hold only for decode failures and the unconfigured state. -/
theorem C6_counterexample :
    token_truthy (some "TOKEN") = true ∧
    (getMessage (some "TOKEN") false (Body.valid ⟨some msg_stories⟩)).1.status = 500 := by
  decide

/-- Claim C6 amended: the POST endpoint answers 500 exactly when the token is
unconfigured, the body fails to decode, or the send fails inside one of the
five label handlers lacking a try/except; every other case answers 200. -/
theorem C6_amended (token : Option String) (send_ok : Bool) (b : Body) :
    ((getMessage token send_ok b).1.status = 500 ↔
      token_truthy token = false ∨ b = Body.malformed ∨
      (send_ok = false ∧ ∃ u m h, b = Body.valid u ∧ u.message = some m ∧
        first_match m = some h ∧ handler_catches h = false)) ∧
    ((getMessage token send_ok b).1.status = 200 ∨
     (getMessage token send_ok b).1.status = 500) := by
  cases htt : token_truthy token with
  | false => simp [getMessage, htt]
  | true =>
    cases b with
    | malformed => simp [getMessage, htt]
    | valid u =>
      cases hr : (process_new_updates send_ok u).2 with
      | false =>
        have hresp : getMessage token send_ok (Body.valid u) =
            (⟨"!", 200⟩, (process_new_updates send_ok u).1) := by
          simp [getMessage, htt, hr]
        rw [hresp]
        refine ⟨⟨fun habs => ?_, ?_⟩, Or.inl rfl⟩
        · simp at habs
        rintro (h500 | hmal | ⟨hs, u2, m, h, hval, hm2, hfm2, hc2⟩)
        · exact absurd h500 (by decide)
        · exact Body.noConfusion hmal
        · injection hval with hval
          subst hval
          have hcon : (process_new_updates send_ok u).2 = true :=
            (process_snd_eq_true send_ok u).mpr ⟨hs, m, h, hm2, hfm2, hc2⟩
          rw [hr] at hcon
          exact absurd hcon (by decide)
      | true =>
        obtain ⟨hs, m, h, hm2, hfm2, hc2⟩ := (process_snd_eq_true send_ok u).mp hr
        have hresp : getMessage token send_ok (Body.valid u) =
            (⟨"Error", 500⟩, (process_new_updates send_ok u).1) := by
          simp [getMessage, htt, hr]
        rw [hresp]
        exact ⟨⟨fun _ => Or.inr (Or.inr ⟨hs, u, m, h, rfl, hm2, hfm2, hc2⟩),
          fun _ => rfl⟩, Or.inr rfl⟩

/-- Claim C7 counterexample: on normal completion the acknowledgment body is
the string "!", not "OK". -/
theorem C7_counterexample :
    (getMessage (some "TOKEN") true (Body.valid ⟨some msg_start⟩)).1 = ⟨"!", 200⟩ ∧
    ("!" : String) ≠ "OK" := by
  decide

/-- Claim C7 amended: after dispatch completes without an escaping exception
(success, or a failure swallowed by the handler's try/except), the POST
endpoint responds 200 with the acknowledgment body "!". -/
theorem C7_amended (tok : String) (send_ok : Bool) (u : Update)
    (htok : tok ≠ "")
    (hdone : (process_new_updates send_ok u).2 = false) :
    (getMessage (some tok) send_ok (Body.valid u)).1 = ⟨"!", 200⟩ := by
  simp [getMessage, token_truthy, htok, hdone]

/-- Witness for the amended C7 at the concrete `/start` update. -/
theorem C7_amended_witness :
    "TOKEN" ≠ "" ∧
    (process_new_updates true ⟨some msg_start⟩).2 = false ∧
    (getMessage (some "TOKEN") true (Body.valid ⟨some msg_start⟩)).1 = ⟨"!", 200⟩ :=
  ⟨by decide, by decide,
   C7_amended "TOKEN" true ⟨some msg_start⟩ (by decide) (by decide)⟩

/-- Claim C8: with the credential absent (unset or empty, both falsy in
Python), the process still serves requests but the GET root and the webhook
POST both answer 500; with a credential configured, the GET root always
answers 200 with a liveness string starting "Bot is running". -/
theorem C8_degraded_or_live (info : Except String String) (send_ok : Bool)
    (b : Body) (t : String) (ht : t ≠ "") :
    (webhook none info).status = 500 ∧
    (getMessage none send_ok b).1.status = 500 ∧
    (webhook (some "") info).status = 500 ∧
    (getMessage (some "") send_ok b).1.status = 500 ∧
    (webhook (some t) info).status = 200 ∧
    (∃ r, (webhook (some t) info).body = "Bot is running" ++ r) := by
  have htt : token_truthy (some t) = true := by
    simp [token_truthy, ht]
  refine ⟨rfl, ?_, rfl, ?_, ?_, ?_⟩
  · simp [getMessage, token_truthy]
  · simp [getMessage, token_truthy]
  · cases info <;> simp [webhook, htt]
  · cases info with
    | ok url =>
      refine ⟨"! Webhook URL: " ++ url, ?_⟩
      simp only [webhook, htt, if_true]
      apply String.ext
      simp [String.data_append]
    | error e =>
      refine ⟨", but failed to get info: " ++ e, ?_⟩
      simp only [webhook, htt, if_true]
      apply String.ext
      simp [String.data_append]

/-- Witness for C8 at a concrete token, webhook info and body. -/
theorem C8_degraded_or_live_witness :
    "TOKEN" ≠ "" ∧
    ((webhook none (Except.ok "https://x")).status = 500 ∧
    (getMessage none true Body.malformed).1.status = 500 ∧
    (webhook (some "") (Except.ok "https://x")).status = 500 ∧
    (getMessage (some "") true Body.malformed).1.status = 500 ∧
    (webhook (some "TOKEN") (Except.ok "https://x")).status = 200 ∧
    (∃ r, (webhook (some "TOKEN") (Except.ok "https://x")).body =
      "Bot is running" ++ r)) :=
  ⟨by decide,
   C8_degraded_or_live (Except.ok "https://x") true Body.malformed "TOKEN" (by decide)⟩

/-- Claim C9: the POST route is registered at the path "/" followed by the
token itself when the credential is truthy, and at "/webhook" otherwise; the
only other route is the GET root, so no other POST route exists. -/
theorem C9_post_route (t : String) (ht : t ≠ "") :
    post_route_path (some t) = "/" ++ t ∧
    post_route_path none = "/" ++ "webhook" ∧
    post_route_path (some "") = "/" ++ "webhook" ∧
    (∀ token : Option String, ∀ r ∈ app_routes token,
      Method.POST ∈ r.methods → r.path = post_route_path token) := by
  refine ⟨?_, rfl, rfl, ?_⟩
  · simp [post_route_path, ht]
  · intro token r hr hpost
    simp only [app_routes, List.mem_cons, List.mem_singleton] at hr
    rcases hr with rfl | rfl | h
    · rfl
    · exact absurd hpost (by decide)
    · exact absurd h (List.not_mem_nil r)

/-- Witness for C9 at a concrete token. -/
theorem C9_post_route_witness :
    "TOKEN" ≠ "" ∧
    (post_route_path (some "TOKEN") = "/" ++ "TOKEN" ∧
    post_route_path none = "/" ++ "webhook" ∧
    post_route_path (some "") = "/" ++ "webhook" ∧
    (∀ token : Option String, ∀ r ∈ app_routes token,
      Method.POST ∈ r.methods → r.path = post_route_path token)) :=
  ⟨by decide, C9_post_route "TOKEN" (by decide)⟩

/-- The outcome of the request at index `pre.length` in a batch depends only
on that request's body, the token and the send oracle. -/
theorem process_requests_getElem (token : Option String) (send_ok : Bool)
    (pre post : List Body) (b : Body) :
    (process_requests token send_ok (pre ++ b :: post))[pre.length]? =
      some (getMessage token send_ok b) := by
  induction pre with
  | nil => simp [process_requests]
  | cons x xs ih => simpa [process_requests] using ih

/-- Claim C10: dispatch is deterministic and stateless across requests — the
response and sends for a body are a function of the body, the configured
token and the send oracle alone, independent of any surrounding requests in
a batch. -/
theorem C10_stateless (token : Option String) (send_ok : Bool)
    (pre1 post1 pre2 post2 : List Body) (b : Body) :
    (process_requests token send_ok (pre1 ++ b :: post1))[pre1.length]? =
      some (getMessage token send_ok b) ∧
    (process_requests token send_ok (pre1 ++ b :: post1))[pre1.length]? =
      (process_requests token send_ok (pre2 ++ b :: post2))[pre2.length]? := by
  refine ⟨process_requests_getElem token send_ok pre1 post1 b, ?_⟩
  rw [process_requests_getElem token send_ok pre1 post1 b,
    process_requests_getElem token send_ok pre2 post2 b]

end Snow
